import Mathlib

/-!
Verification of the lutris launch-argument composition pipeline, the Wine
version registry, and the system command-execution helpers.

The definitions below are a shallow embedding of the Python source:
  * `lutris/util/wine/wine.py`   (`get_overrides_env`, `get_wine_path_for_version`)
  * `lutris/util/system.py`      (`_execute`, `execute`, `execute_with_error`,
                                  `find_executable`, `can_find_executable`)
  * `lutris/runner_interpreter.py` (`get_launch_parameters`, `get_gamescope_args`,
                                  `get_mangohud_conf`)

Python strings are modelled by `String`, Python dicts (which preserve insertion
order) by association lists `List (String × String)` with unique keys, machine
interaction (PATH lookup, filesystem stats, subprocess spawning, `os.environ`)
by explicit oracle records, and Python exceptions by `Except PyErr`.
-/

namespace Lutris

/-- Python exception classes that the embedded code can raise. -/
inductive PyErr where
  | keyError
  | valueError
  | missingExecutable
  | runtimeError
  | unspecifiedVersion
  deriving DecidableEq, Repr

/-! ## Python string primitives

These model the Python `str` methods used by the source
(`replace`, `split`, `lower`, `strip`, `isnumeric`, `in`, `sorted`).
They are written with structural recursion (fuel = input length where needed)
so that closed instances reduce inside the kernel. -/

/-- `listStartsWith pat l` is true when `pat` is an initial segment of `l`. -/
def listStartsWith : List Char → List Char → Bool
  | [], _ => true
  | _ :: _, [] => false
  | a :: as, b :: bs => a == b && listStartsWith as bs

/-- Occurrence test used to model the Python `in` operator on strings. -/
def listContainsAux (needle : List Char) : List Char → Bool
  | [] => needle.isEmpty
  | c :: cs => listStartsWith needle (c :: cs) || listContainsAux needle cs

/-- Python `needle in s` (substring containment). -/
def strContains (s needle : String) : Bool :=
  listContainsAux needle.data s.data

/-- Replace every non-overlapping occurrence of `pat` left-to-right, as Python
`str.replace` does.  `fuel` is the length of the remaining input. -/
def replaceFuel (pat repl : List Char) : Nat → List Char → List Char
  | _, [] => []
  | 0, l => l
  | fuel + 1, c :: cs =>
    if pat ≠ [] && listStartsWith pat (c :: cs) then
      repl ++ replaceFuel pat repl fuel (List.drop (pat.length - 1) cs)
    else
      c :: replaceFuel pat repl fuel cs

/-- Python `s.replace(pat, repl)` (for the non-empty patterns used here). -/
def pyReplace (s pat repl : String) : String :=
  ⟨replaceFuel pat.data repl.data s.data.length s.data⟩

/-- Splitting worker for `pySplit`; `acc` holds the current chunk reversed. -/
def splitOnFuel (sep : List Char) : Nat → List Char → List Char → List (List Char)
  | _, [], acc => [acc.reverse]
  | 0, l, acc => [acc.reverse ++ l]
  | fuel + 1, c :: cs, acc =>
    if sep ≠ [] && listStartsWith sep (c :: cs) then
      acc.reverse :: splitOnFuel sep fuel (List.drop (sep.length - 1) cs) []
    else
      splitOnFuel sep fuel cs (c :: acc)

/-- Python `s.split(sep)` for a non-empty separator. -/
def pySplit (s sep : String) : List String :=
  (splitOnFuel sep.data s.data.length s.data []).map String.mk

/-- Python `s.lower()` (ASCII case folding, which is all the source needs). -/
def pyLower (s : String) : String :=
  ⟨s.data.map Char.toLower⟩

/-- Python `s.strip()` with the default whitespace set. -/
def pyStrip (s : String) : String :=
  ⟨((s.data.dropWhile Char.isWhitespace).reverse.dropWhile Char.isWhitespace).reverse⟩

/-- Python `s.isnumeric()` restricted to ASCII digits, the only inputs the
configuration can meaningfully supply to `int()` afterwards. -/
def pyIsNumeric (s : String) : Bool :=
  !s.data.isEmpty && s.data.all Char.isDigit

/-- Python `int(s)` for a string of decimal digits. -/
def pyParseNat (l : List Char) : Nat :=
  l.foldl (fun acc c => acc * 10 + (c.toNat - '0'.toNat)) 0

/-- Lexicographic comparison of strings by code point, as Python `<=` does. -/
def lexLe : List Char → List Char → Bool
  | [], _ => true
  | _ :: _, [] => false
  | a :: as, b :: bs => if a = b then lexLe as bs else decide (a < b)

/-- Insert into an already sorted list, keeping it sorted. -/
def insertSorted (x : String) : List String → List String
  | [] => [x]
  | y :: ys => if lexLe x.data y.data then x :: y :: ys else y :: insertSorted x ys

/-- Python `sorted` on a list of strings. -/
def pySorted (l : List String) : List String :=
  l.foldr insertSorted []

/-! ## Python dict primitives (insertion-ordered association lists) -/

/-- Python `d.get(k)` / `d[k]`: value of the first matching key. -/
def dictGet (d : List (String × String)) (k : String) : Option String :=
  match d with
  | [] => none
  | (k2, v) :: rest => if k2 = k then some v else dictGet rest k

/-- Python `d[k] = v`: overwrite in place, or append preserving insertion order. -/
def dictSet (d : List (String × String)) (k v : String) : List (String × String) :=
  match d with
  | [] => [(k, v)]
  | (k2, w) :: rest => if k2 = k then (k2, v) :: rest else (k2, w) :: dictSet rest k v

/-- Python `d.update(other)`. -/
def dictUpdate (d : List (String × String)) (other : List (String × String)) :
    List (String × String) :=
  other.foldl (fun acc p => dictSet acc p.1 p.2) d

/-- Python `filter(None, xs)` over optional strings: keep truthy values. -/
def pyFilterTruthy (l : List (Option String)) : List String :=
  l.filterMap fun o =>
    match o with
    | some s => if s ≠ "" then some s else none
    | none => none

theorem dictGet_dictSet_self (d : List (String × String)) (k v : String) :
    dictGet (dictSet d k v) k = some v := by
  induction d with
  | nil => simp [dictSet, dictGet]
  | cons p rest ih =>
    obtain ⟨k2, w⟩ := p
    by_cases h : k2 = k
    · simp [dictSet, dictGet, h]
    · simp [dictSet, dictGet, h, ih]

/-! ## `lutris/util/wine/wine.py` — `get_overrides_env` (lines 309-337) -/

/-- The normalisation of one override value: successive `str.replace` calls
`value.replace(" ", "").replace("builtin", "b").replace("native", "n")
.replace("disabled", "")` (the `if not value: value = ""` guard is the identity
on strings). -/
def overrideValue (value : String) : String :=
  pyReplace (pyReplace (pyReplace (pyReplace value " " "") "builtin" "b") "native" "n")
    "disabled" ""

/-- The `OrderedDict` of DLL buckets, keys `"n,b"`, `"b,n"`, `"b"`, `"n"`,
`"d"`, `""` in that order. -/
structure Buckets where
  nb : List String
  bn : List String
  b : List String
  n : List String
  d : List String
  empty : List String

/-- `override_buckets[value].append(dll)`; an unknown bucket key raises
`KeyError`, which the source catches, logs and skips. -/
def addToBucket (bk : Buckets) (value dll : String) : Buckets :=
  if value = "n,b" then { bk with nb := bk.nb ++ [dll] }
  else if value = "b,n" then { bk with bn := bk.bn ++ [dll] }
  else if value = "b" then { bk with b := bk.b ++ [dll] }
  else if value = "n" then { bk with n := bk.n ++ [dll] }
  else if value = "d" then { bk with d := bk.d ++ [dll] }
  else if value = "" then { bk with empty := bk.empty ++ [dll] }
  else bk

/-- Iteration order of the bucket `OrderedDict`. -/
def bucketPairs (bk : Buckets) : List (String × List String) :=
  [("n,b", bk.nb), ("b,n", bk.bn), ("b", bk.b), ("n", bk.n), ("d", bk.d), ("", bk.empty)]

/-- `get_overrides_env`, with the post-state of the caller's `overrides` dict
made explicit: the source mutates its argument via
`overrides.update(default_overrides)` before iterating it. -/
def get_overrides_env_state (overrides : List (String × String)) :
    String × List (String × String) :=
  let overrides2 := dictUpdate overrides [("winemenubuilder", "")]
  let bk := overrides2.foldl (fun bk p => addToBucket bk (overrideValue p.2) p.1)
    ⟨[], [], [], [], [], []⟩
  let override_strings := (bucketPairs bk).filterMap fun p =>
    if p.2.isEmpty then none
    else some (String.intercalate "," (pySorted p.2) ++ "=" ++ p.1)
  (String.intercalate ";" override_strings, overrides2)

/-- The return value of `get_overrides_env`. -/
def get_overrides_env (overrides : List (String × String)) : String :=
  (get_overrides_env_state overrides).1

/-! ## `lutris/util/system.py` — executable lookup (lines 245-259) -/

/-- `shutil.which`, as an oracle from names to their resolved absolute path. -/
def can_find_executable (which : String → Option String) (exec_name : String) : Bool :=
  exec_name != "" && (which exec_name).isSome

/-- `find_executable` (lines 251-259): resolve or raise `MissingExecutableError`. -/
def find_executable (which : String → Option String) (exec_name : String) :
    Except PyErr String :=
  if exec_name != "" then
    match which exec_name with
    | some exe => Except.ok exe
    | none => Except.error PyErr.missingExecutable
  else Except.error PyErr.missingExecutable

/-! ## `lutris/util/system.py` — `_execute` / `execute` / `execute_with_error`
(lines 59-134) -/

/-- A Python value that `_execute` can return: a bare string on its error
paths, a `(stdout, stderr)` tuple on success. -/
inductive PyVal where
  | str : String → PyVal
  | pair : String → String → PyVal
  deriving DecidableEq, Repr

/-- What `subprocess.Popen` + `communicate` does for the given call: success
with captured streams, an `OSError`/`TypeError` at spawn, or
`subprocess.TimeoutExpired`. -/
inductive SpawnOutcome where
  | success : String → String → SpawnOutcome
  | oserror : SpawnOutcome
  | timeout : SpawnOutcome
  deriving DecidableEq, Repr

/-- Host-system behaviour consumed by `_execute`. -/
structure ExecEnv where
  path_exists : String → Bool
  outcome : SpawnOutcome

/-- `os.path.isabs` on POSIX. -/
def isAbs (p : String) : Bool :=
  listStartsWith ['/'] p.data

/-- `_execute` (lines 94-134).  The environment overlay only affects the
spawned process, not the control flow modelled here; spawn errors it can cause
are covered by `SpawnOutcome.oserror`.  Note that the early-return and
exception branches return a bare string `""` while the success branch returns
a tuple. -/
def execute_impl (ee : ExecEnv) (command : List String) (capture_stderr : Bool) : PyVal :=
  match command with
  | [] => PyVal.str ""
  | c0 :: _ =>
    if isAbs c0 && !ee.path_exists c0 then PyVal.str ""
    else
      match ee.outcome with
      | SpawnOutcome.success out err =>
        PyVal.pair (pyStrip out) (pyStrip (if capture_stderr then err else ""))
      | SpawnOutcome.oserror => PyVal.str ""
      | SpawnOutcome.timeout => PyVal.str ""

/-- Python tuple unpacking `a, b = v`: a 2-tuple unpacks, and a string unpacks
only when it has exactly two characters; otherwise `ValueError` is raised. -/
def unpackPair : PyVal → Except PyErr (String × String)
  | PyVal.pair a b => Except.ok (a, b)
  | PyVal.str s =>
    match s.data with
    | [a, b] => Except.ok (String.mk [a], String.mk [b])
    | _ => Except.error PyErr.valueError

/-- `execute` (lines 59-74): `stdout, _stderr = _execute(...)` then return
`stdout`. -/
def execute (ee : ExecEnv) (command : List String) : Except PyErr String :=
  match unpackPair (execute_impl ee command false) with
  | Except.ok (stdout, _) => Except.ok stdout
  | Except.error e => Except.error e

/-- `execute_with_error` (lines 77-91): returns `_execute`'s value directly. -/
def execute_with_error (ee : ExecEnv) (command : List String) : PyVal :=
  execute_impl ee command true

/-! ## `lutris/util/wine/wine.py` — `get_wine_path_for_version` (lines 17-36,
179-203) -/

/-- The static part of `WINE_PATHS` (lines 19-24). -/
def WINE_PATHS_static : List (String × String) :=
  [("winehq-devel", "/opt/wine-devel/bin/wine"),
   ("winehq-staging", "/opt/wine-staging/bin/wine"),
   ("wine-development", "/usr/lib/wine-development/wine"),
   ("system", "wine")]

/-- Host filesystem and Steam state consumed by the version registry. -/
structure WineFs where
  which : String → Option String
  isfile : String → Bool
  proton_paths : List String
  usr_lib_wine_builds : List (String × String)
  wine_dir : String

/-- `os.path.join` for the relative second components used by this module. -/
def pathJoin (a b : String) : String :=
  ⟨a.data ++ '/' :: b.data⟩

/-- `"System " + candidate`, the key under which an additional system-wide
Wine build found in `/usr/lib` is registered (line 32). -/
def sysWineName (candidate : String) : String :=
  ⟨'S' :: 'y' :: 's' :: 't' :: 'e' :: 'm' :: ' ' :: candidate.data⟩

/-- `WINE_PATHS` after the import-time `/usr/lib` enumeration (lines 26-36). -/
def winePaths (fs : WineFs) : List (String × String) :=
  WINE_PATHS_static ++ fs.usr_lib_wine_builds.map (fun p => (sysWineName p.1, p.2))

/-- The `for proton_path in get_proton_paths()` loop (lines 191-195): the first
Proton directory whose `dist/bin/wine` or `files/bin/wine` exists. -/
def firstProtonHit (fs : WineFs) (version : String) : List String → Option String
  | [] => none
  | proton_path :: rest =>
    if fs.isfile (pathJoin (pathJoin proton_path version) "dist/bin/wine") then
      some (pathJoin (pathJoin proton_path version) "dist/bin/wine")
    else if fs.isfile (pathJoin (pathJoin proton_path version) "files/bin/wine") then
      some (pathJoin (pathJoin proton_path version) "files/bin/wine")
    else firstProtonHit fs version rest

/-- Lines 182-186: `if not version and config: version = config["version"]`
(a direct index, hence `KeyError` when absent) then
`if not version: raise UnspecifiedVersionError`. -/
def effective_version (version : String) (config : Option (List (String × String))) :
    Except PyErr String :=
  if version = "" then
    match config with
    | some c =>
      match dictGet c "version" with
      | some v => Except.ok v
      | none => Except.error PyErr.keyError
    | none => Except.ok version
  else Except.ok version

/-- Lines 185-203 applied to the effective version string. -/
def resolve_version_path (fs : WineFs) (version : String)
    (config : Option (List (String × String))) : Except PyErr String :=
  if version = "" then Except.error PyErr.unspecifiedVersion
  else
    match dictGet (winePaths fs) version with
    | some build => find_executable fs.which build
    | none =>
      match (if strContains version "Proton" then
               firstProtonHit fs version fs.proton_paths
             else none) with
      | some p => Except.ok p
      | none =>
        if version = "custom" then
          match config with
          | none => Except.error PyErr.runtimeError
          | some c =>
            match dictGet c "custom_wine_path" with
            | none => Except.error PyErr.runtimeError
            | some wine_path =>
              if wine_path = "" then Except.error PyErr.runtimeError
              else Except.ok wine_path
        else Except.ok (pathJoin (pathJoin fs.wine_dir version) "bin/wine")

/-- `get_wine_path_for_version` (lines 179-203). -/
def get_wine_path_for_version (fs : WineFs) (version : String)
    (config : Option (List (String × String))) : Except PyErr String :=
  match effective_version version config with
  | Except.ok v => resolve_version_path fs v config
  | Except.error e => Except.error e

/-! ## `lutris/runner_interpreter.py` — the launch composer

Configuration keys the composer consumes.  All keys are read with the
defaulting `.get` lookup — except `locale`, which is read by direct indexing
(`system_config["locale"]`, line 34) and is therefore an `Option` whose
`none` means "key absent".  Boolean-flag keys are modelled as `Bool`
(Python truthiness), string-valued keys as `Option String` where a missing key
and a `None` value coincide. -/
structure SysConfig where
  locale : Option String := none
  optimus : Option String := none
  mangohud : Bool := false
  gamescope : Bool := false
  fps_limit : Option String := none
  prefix_command : Option String := none
  single_cpu : Bool := false
  limit_cpu_count : Option String := none
  gamemode : Bool := false
  gamescope_force_grab_cursor : Bool := false
  gamescope_fsr_sharpness : Option String := none
  gamescope_flags : Option String := none
  gamescope_window_mode : Option String := none
  gamescope_fps_limiter : Option String := none
  gamescope_output_res : Option String := none
  gamescope_game_res : Option String := none

/-- The runner collaborator: its system configuration and `get_env()`. -/
structure Runner where
  system_config : SysConfig
  get_env : List (String × String) := []

/-- `gameplay_info`: base command and optional environment fields. -/
structure GameplayInfo where
  command : List String
  env : Option (List (String × String)) := none
  ld_preload : Option String := none
  ld_library_path : Option String := none

/-- Host-system behaviour consumed by the composer: `shutil.which`,
`LINUX_SYSTEM.gamemode_available()`, `os.environ.get("SteamAppId")`, the
Python-stdlib `shlex.split` and `os.path.expandvars`, and the memoized
`_get_gamescope_fsr_option()` result (itself derived from a `gamescope --help`
probe). -/
structure Oracles where
  which : String → Option String
  gamemode_available : Bool
  steam_app_id : Option String := none
  shlexSplit : String → List String := fun _ => []
  expandvars : String → String := id
  fsr_option : List String := ["-U"]

/-- `get_mangohud_conf` (lines 12-18). -/
def get_mangohud_conf (orc : Oracles) (system_config : SysConfig) :
    Option (List String) × Option (List (String × String)) :=
  let mangohud_val := if system_config.gamescope then "0" else "1"
  if system_config.mangohud && can_find_executable orc.which "mangohud" then
    (some ["mangohud"], some [("MANGOHUD", mangohud_val), ("MANGOHUD_DLSYM", "1")])
  else (none, none)

/-- The Optimus stage (lines 38-46). -/
def apply_optimus (orc : Oracles) (cfg : SysConfig) (args : List String) : List String :=
  if cfg.optimus == some "primusrun" && can_find_executable orc.which "primusrun" then
    "primusrun" :: args
  else if cfg.optimus == some "optirun" && can_find_executable orc.which "optirun" then
    "optirun" :: "-b" :: "virtualgl" :: args
  else if cfg.optimus == some "pvkrun" && can_find_executable orc.which "pvkrun" then
    "pvkrun" :: args
  else args

/-- The libstrangle FPS-limiter stage (lines 54-61): prepend the resolved
`strangle` executable and the limit; a `MissingExecutableError` is caught,
logged and the stage skipped. -/
def apply_fps_limit (orc : Oracles) (cfg : SysConfig) (args : List String) : List String :=
  let fps_limit := cfg.fps_limit.getD ""
  if fps_limit ≠ "" then
    match find_executable orc.which "strangle" with
    | Except.ok strangle_cmd => strangle_cmd :: fps_limit :: args
    | Except.error _ => args
  else args

/-- The prefix-command stage (lines 63-65). -/
def apply_prefix_command (orc : Oracles) (cfg : SysConfig) (args : List String) :
    List String :=
  let prefix_command := cfg.prefix_command.getD ""
  if prefix_command ≠ "" then orc.shlexSplit (orc.expandvars prefix_command) ++ args
  else args

/-- The CPU-affinity stage (lines 67-79): `taskset -c 0-<N-1>` where `N` is
`max(1, int(limit_cpu_count))` when that key is a numeric string, else 1. -/
def apply_single_cpu (cfg : SysConfig) (args : List String) : List String :=
  if cfg.single_cpu then
    let limit_cpu_count :=
      match cfg.limit_cpu_count with
      | some s => if s ≠ "" && pyIsNumeric s then pyParseNat s.data else 1
      | none => 1
    let limit_cpu_count := max 1 limit_cpu_count
    "taskset" :: "-c" :: ("0-" ++ toString (limit_cpu_count - 1)) :: args
  else args

/-! ### `get_gamescope_args` (lines 112-145)

Each sub-stage mirrors one `if` block; successive blocks prepend to the front
of the working vector, which starts as `"--" :: launch_arguments`. -/

/-- Lines 115-116. -/
def stage_force_grab (cfg : SysConfig) (args : List String) : List String :=
  if cfg.gamescope_force_grab_cursor then "--force-grab-cursor" :: args else args

/-- Lines 117-121: `insert(0, sharpness)`, `insert(0, "--fsr-sharpness")`,
then `args[0:0] = _get_gamescope_fsr_option()`. -/
def stage_fsr (orc : Oracles) (cfg : SysConfig) (args : List String) : List String :=
  match cfg.gamescope_fsr_sharpness with
  | some v => if v ≠ "" then orc.fsr_option ++ "--fsr-sharpness" :: v :: args else args
  | none => args

/-- Lines 122-124: `shlex.split(gamescope_flags) + args`. -/
def stage_flags (orc : Oracles) (cfg : SysConfig) (args : List String) : List String :=
  match cfg.gamescope_flags with
  | some f => if f ≠ "" then orc.shlexSplit f ++ args else args
  | none => args

/-- Lines 125-127. -/
def stage_window_mode (cfg : SysConfig) (args : List String) : List String :=
  match cfg.gamescope_window_mode with
  | some m => if m ≠ "" then m :: args else args
  | none => args

/-- Lines 128-131. -/
def stage_fps_limiter (cfg : SysConfig) (args : List String) : List String :=
  match cfg.gamescope_fps_limiter with
  | some r => if r ≠ "" then "-r" :: r :: args else args
  | none => args

/-- Lines 132-137: `output_width, output_height = res.lower().split("x")`
(a two-element unpacking, raising `ValueError` otherwise) then prepend
`-W <w> -H <h>`. -/
def stage_output_res (cfg : SysConfig) (args : List String) : Except PyErr (List String) :=
  match cfg.gamescope_output_res with
  | some s =>
    if s ≠ "" then
      match pySplit (pyLower s) "x" with
      | [w, h] => Except.ok ("-W" :: w :: "-H" :: h :: args)
      | _ => Except.error PyErr.valueError
    else Except.ok args
  | none => Except.ok args

/-- Lines 138-143: the same for the game resolution, flags `-w`/`-h`. -/
def stage_game_res (cfg : SysConfig) (args : List String) : Except PyErr (List String) :=
  match cfg.gamescope_game_res with
  | some s =>
    if s ≠ "" then
      match pySplit (pyLower s) "x" with
      | [w, h] => Except.ok ("-w" :: w :: "-h" :: h :: args)
      | _ => Except.error PyErr.valueError
    else Except.ok args
  | none => Except.ok args

/-- The prepend-only flag section of `get_gamescope_args`, lines 115-131, in
source order. -/
def gamescope_flag_prepends (orc : Oracles) (cfg : SysConfig) (args : List String) :
    List String :=
  stage_fps_limiter cfg
    (stage_window_mode cfg (stage_flags orc cfg (stage_fsr orc cfg (stage_force_grab cfg args))))

/-- `get_gamescope_args` (lines 112-145). -/
def get_gamescope_args (orc : Oracles) (system_config : SysConfig)
    (launch_arguments : List String) : Except PyErr (List String) :=
  match stage_output_res system_config
      (gamescope_flag_prepends orc system_config ("--" :: launch_arguments)) with
  | Except.error e => Except.error e
  | Except.ok args =>
    match stage_game_res system_config args with
    | Except.error e => Except.error e
    | Except.ok args => Except.ok ("gamescope" :: args)

/-- `get_launch_parameters` (lines 21-109). -/
def get_launch_parameters (orc : Oracles) (runner : Runner)
    (gameplay_info : GameplayInfo) :
    Except PyErr (List String × List (String × String)) :=
  let system_config := runner.system_config
  let launch_arguments := gameplay_info.command
  let env0 := [("DISABLE_LAYER_AMD_SWITCHABLE_GRAPHICS_1", "1")]
  let env1 := if orc.steam_app_id.getD "" ≠ "" then dictSet env0 "LC_ALL" "" else env0
  match system_config.locale with
  | none => Except.error PyErr.keyError
  | some locale =>
    let env2 := if locale ≠ "" then dictSet env1 "LC_ALL" locale else env1
    let args1 := apply_optimus orc system_config launch_arguments
    let mango := get_mangohud_conf orc system_config
    let args2 :=
      match mango.1 with
      | some mango_args => mango_args ++ args1
      | none => args1
    let env3 :=
      match mango.1, mango.2 with
      | some _, some mango_env => dictUpdate env2 mango_env
      | _, _ => env2
    let args3 := apply_fps_limit orc system_config args2
    let args4 := apply_prefix_command orc system_config args3
    let args5 := apply_single_cpu system_config args4
    let env4 := dictUpdate env3 runner.get_env
    let env5 := dictUpdate env4 (gameplay_info.env.getD [])
    let env6 :=
      match gameplay_info.ld_preload with
      | some lp => if lp ≠ "" then dictSet env5 "LD_PRELOAD" lp else env5
      | none => env5
    let env7 :=
      match gameplay_info.ld_library_path with
      | some glp =>
        if glp ≠ "" then
          dictSet env6 "LD_LIBRARY_PATH"
            (String.intercalate ":"
              (pyFilterTruthy [some glp, dictGet env6 "LD_LIBRARY_PATH"]))
        else env6
      | none => env6
    let args6 :=
      if system_config.gamemode && orc.gamemode_available then "gamemoderun" :: args5
      else args5
    if system_config.gamescope && can_find_executable orc.which "gamescope" then
      match get_gamescope_args orc system_config args6 with
      | Except.ok la => Except.ok (la, env7)
      | Except.error e => Except.error e
    else Except.ok (args6, env7)

/-! ## Helper lemmas -/

/-- `args` is `base` with some tokens prepended in front. -/
def ExtendsFront (base args : List String) : Prop :=
  ∃ P, args = P ++ base

theorem extendsFront_refl (base : List String) : ExtendsFront base base :=
  ⟨[], rfl⟩

theorem extendsFront_cons (x : String) {base args : List String}
    (h : ExtendsFront base args) : ExtendsFront base (x :: args) := by
  obtain ⟨P, hP⟩ := h
  exact ⟨x :: P, by simp [hP]⟩

theorem extendsFront_append (L : List String) {base args : List String}
    (h : ExtendsFront base args) : ExtendsFront base (L ++ args) := by
  obtain ⟨P, hP⟩ := h
  exact ⟨L ++ P, by simp [hP]⟩

theorem extendsFront_trans {a b c : List String}
    (h1 : ExtendsFront a b) (h2 : ExtendsFront b c) : ExtendsFront a c := by
  obtain ⟨P1, hP1⟩ := h1
  obtain ⟨P2, hP2⟩ := h2
  exact ⟨P2 ++ P1, by simp [hP1, hP2]⟩

theorem stage_force_grab_ext (cfg : SysConfig) (args : List String) :
    ExtendsFront args (stage_force_grab cfg args) := by
  unfold stage_force_grab
  split
  · exact extendsFront_cons _ (extendsFront_refl args)
  · exact extendsFront_refl args

theorem stage_fsr_ext (orc : Oracles) (cfg : SysConfig) (args : List String) :
    ExtendsFront args (stage_fsr orc cfg args) := by
  unfold stage_fsr
  split
  · split
    · exact extendsFront_append _
        (extendsFront_cons _ (extendsFront_cons _ (extendsFront_refl args)))
    · exact extendsFront_refl args
  · exact extendsFront_refl args

theorem stage_flags_ext (orc : Oracles) (cfg : SysConfig) (args : List String) :
    ExtendsFront args (stage_flags orc cfg args) := by
  unfold stage_flags
  split
  · split
    · exact extendsFront_append _ (extendsFront_refl args)
    · exact extendsFront_refl args
  · exact extendsFront_refl args

theorem stage_window_mode_ext (cfg : SysConfig) (args : List String) :
    ExtendsFront args (stage_window_mode cfg args) := by
  unfold stage_window_mode
  split
  · split
    · exact extendsFront_cons _ (extendsFront_refl args)
    · exact extendsFront_refl args
  · exact extendsFront_refl args

theorem stage_fps_limiter_ext (cfg : SysConfig) (args : List String) :
    ExtendsFront args (stage_fps_limiter cfg args) := by
  unfold stage_fps_limiter
  split
  · split
    · exact extendsFront_cons _ (extendsFront_cons _ (extendsFront_refl args))
    · exact extendsFront_refl args
  · exact extendsFront_refl args

theorem gamescope_flag_prepends_ext (orc : Oracles) (cfg : SysConfig)
    (args : List String) : ExtendsFront args (gamescope_flag_prepends orc cfg args) := by
  unfold gamescope_flag_prepends
  exact extendsFront_trans
    (extendsFront_trans
      (extendsFront_trans
        (extendsFront_trans (stage_force_grab_ext cfg args) (stage_fsr_ext orc cfg _))
        (stage_flags_ext orc cfg _))
      (stage_window_mode_ext cfg _))
    (stage_fps_limiter_ext cfg _)

theorem stage_output_res_ext (cfg : SysConfig) (args res : List String)
    (h : stage_output_res cfg args = Except.ok res) : ExtendsFront args res := by
  unfold stage_output_res at h
  split at h
  · split at h
    · split at h
      · cases h
        exact extendsFront_cons _ (extendsFront_cons _
          (extendsFront_cons _ (extendsFront_cons _ (extendsFront_refl args))))
      · cases h
    · cases h
      exact extendsFront_refl args
  · cases h
    exact extendsFront_refl args

theorem stage_game_res_ext (cfg : SysConfig) (args res : List String)
    (h : stage_game_res cfg args = Except.ok res) : ExtendsFront args res := by
  unfold stage_game_res at h
  split at h
  · split at h
    · split at h
      · cases h
        exact extendsFront_cons _ (extendsFront_cons _
          (extendsFront_cons _ (extendsFront_cons _ (extendsFront_refl args))))
      · cases h
    · cases h
      exact extendsFront_refl args
  · cases h
    exact extendsFront_refl args

/-- Any successful `get_gamescope_args` call returns `gamescope`, some flag
tokens, then `--`, then the incoming vector untouched. -/
theorem get_gamescope_args_shape (orc : Oracles) (cfg : SysConfig)
    (la res : List String) (h : get_gamescope_args orc cfg la = Except.ok res) :
    ∃ P, res = "gamescope" :: (P ++ "--" :: la) := by
  unfold get_gamescope_args at h
  split at h
  · cases h
  · rename_i args1 h1
    split at h
    · cases h
    · rename_i args2 h2
      cases h
      have e1 : ExtendsFront ("--" :: la) args1 :=
        extendsFront_trans (gamescope_flag_prepends_ext orc cfg _)
          (stage_output_res_ext cfg _ _ h1)
      have e2 : ExtendsFront ("--" :: la) args2 :=
        extendsFront_trans e1 (stage_game_res_ext cfg _ _ h2)
      obtain ⟨P, hP⟩ := e2
      exact ⟨P, by simp [hP]⟩

theorem dictGet_append (a b : List (String × String)) (k : String) :
    dictGet (a ++ b) k =
      match dictGet a k with
      | some v => some v
      | none => dictGet b k := by
  induction a with
  | nil => simp [dictGet]
  | cons p rest ih =>
    obtain ⟨k2, v⟩ := p
    by_cases h : k2 = k
    · simp [dictGet, h]
    · simp [dictGet, h, ih]

theorem sysWineName_ne_custom (k : String) : sysWineName k ≠ "custom" := by
  intro h
  have h2 : (sysWineName k).data.head? = "custom".data.head? :=
    congrArg (fun s => s.data.head?) h
  have h3 : (some 'S' : Option Char) = some 'c' := h2
  exact absurd h3 (by decide)

theorem winePaths_custom (fs : WineFs) : dictGet (winePaths fs) "custom" = none := by
  unfold winePaths
  rw [dictGet_append]
  have hstatic : dictGet WINE_PATHS_static "custom" = none := by decide
  rw [hstatic]
  induction fs.usr_lib_wine_builds with
  | nil => rfl
  | cons p rest ih =>
    simpa [dictGet, sysWineName_ne_custom p.1] using ih

theorem pathJoin_ne_empty (a b : String) : pathJoin a b ≠ "" := by
  intro h
  have h2 : (pathJoin a b).data = ([] : List Char) := congrArg String.data h
  have h3 : a.data ++ '/' :: b.data = ([] : List Char) := h2
  exact absurd (List.append_eq_nil.mp h3).2 (by simp)

theorem find_executable_ok_ne_empty (which : String → Option String) (name p : String)
    (hw : ∀ e q, which e = some q → q ≠ "")
    (h : find_executable which name = Except.ok p) : p ≠ "" := by
  unfold find_executable at h
  split at h
  · cases hq : which name with
    | none => rw [hq] at h; cases h
    | some exe =>
      rw [hq] at h
      simp only [Except.ok.injEq] at h
      exact h ▸ hw name exe hq
  · cases h

theorem firstProtonHit_ne_empty (fs : WineFs) (version p : String) :
    ∀ l : List String, firstProtonHit fs version l = some p → p ≠ "" := by
  intro l
  induction l with
  | nil => intro h; cases h
  | cons x rest ih =>
    intro h
    unfold firstProtonHit at h
    split at h
    · cases h
      exact pathJoin_ne_empty _ _
    · split at h
      · cases h
        exact pathJoin_ne_empty _ _
      · exact ih h

/-! ## Concrete hosts, runners and configurations used as witnesses -/

/-- A host where no executable resolves and gamemode is available. -/
def orc0 : Oracles := { which := fun _ => none, gamemode_available := true }

/-- A host where only `gamescope` resolves. -/
def orcG : Oracles :=
  { which := fun e => if e = "gamescope" then some "/usr/bin/gamescope" else none,
    gamemode_available := true }

/-- A host where only `strangle` resolves. -/
def orcS : Oracles :=
  { which := fun e => if e = "strangle" then some "/usr/bin/strangle" else none,
    gamemode_available := false }

/-- gamemode on, gamescope off. -/
def runnerA : Runner := { system_config := { locale := some "", gamemode := true } }

/-- gamemode and gamescope both on. -/
def runnerB : Runner :=
  { system_config := { locale := some "", gamemode := true, gamescope := true } }

/-- single_cpu with a parsable CPU count. -/
def runnerC : Runner :=
  { system_config :=
      { locale := some "", single_cpu := true, limit_cpu_count := some "4" } }

/-- single_cpu with an unparsable CPU count. -/
def runnerD : Runner :=
  { system_config :=
      { locale := some "", single_cpu := true, limit_cpu_count := some "bogus" } }

/-- A configuration mapping that lacks the `locale` key. -/
def runner9 : Runner := { system_config := {} }

/-- fps_limit set. -/
def cfgF : SysConfig := { locale := some "", fps_limit := some "60" }

/-- Runner carrying `cfgF`. -/
def runnerF : Runner := { system_config := cfgF }

/-- A one-entry base command. -/
def gi0 : GameplayInfo := { command := ["game"] }

/-- A host filesystem on which nothing exists and nothing is on PATH. -/
def fs0 : WineFs := ⟨fun _ => none, fun _ => false, [], [], "/rd/wine"⟩

/-- A configuration with a custom wine path set. -/
def cfg_custom : List (String × String) := [("custom_wine_path", "/opt/mywine/bin/wine")]

/-! ## Claim theorems -/

/-- C1 (counterexample): on the mapping `d3d9 ↦ native, mscoree ↦ disabled`,
`get_overrides_env` does not return `"d3d9=n;mscoree=d"`: the source rewrites
`disabled` to the empty mode and adds the default `winemenubuilder` entry. -/
theorem c1_overrides_counterexample :
    get_overrides_env [("d3d9", "native"), ("mscoree", "disabled")] ≠
      "d3d9=n;mscoree=d" := by
  decide

/-- C1 (amended): on the mapping `d3d9 ↦ native, mscoree ↦ disabled`,
`get_overrides_env` returns exactly `"d3d9=n;mscoree,winemenubuilder="`:
`"disabled"` is rewritten to the empty mode string, so `mscoree` lands in the
empty bucket together with the always-added default `winemenubuilder ↦ ""`
entry; bucket order is `n,b`, `b,n`, `b`, `n`, `d`, empty, DLLs are sorted
within a bucket, and groups are joined by semicolons. -/
theorem c1_overrides_amended :
    get_overrides_env [("d3d9", "native"), ("mscoree", "disabled")] =
      "d3d9=n;mscoree,winemenubuilder=" := by
  decide

/-- C2 (code bug): on an OS-level spawn failure or a timeout, `_execute`
returns the bare string `""` (first and third conjuncts) while its success
path returns a `(stdout, stderr)` tuple, so the tuple unpacking
`stdout, _stderr = _execute(...)` inside `execute` raises `ValueError` to the
caller instead of returning empty output. -/
theorem c2_execute_raises_on_failure :
    execute ⟨fun _ => false, SpawnOutcome.oserror⟩ ["missing-tool"] =
      Except.error PyErr.valueError ∧
    execute ⟨fun _ => false, SpawnOutcome.timeout⟩ ["slow-tool"] =
      Except.error PyErr.valueError ∧
    execute_impl ⟨fun _ => false, SpawnOutcome.oserror⟩ ["missing-tool"] false =
      PyVal.str "" ∧
    execute_with_error ⟨fun _ => false, SpawnOutcome.timeout⟩ ["slow-tool"] =
      PyVal.str "" :=
  ⟨rfl, rfl, rfl, rfl⟩

/-- C5: resolving version `"custom"` fails with the `RuntimeError`-style
misconfiguration error when no configuration is supplied or when its
`custom_wine_path` field is missing or empty, and returns exactly the
configured non-empty path otherwise — never an empty path. -/
theorem c5_custom_version (fs : WineFs) (config : List (String × String)) :
    get_wine_path_for_version fs "custom" none = Except.error PyErr.runtimeError ∧
    ((dictGet config "custom_wine_path" = none ∨
      dictGet config "custom_wine_path" = some "") →
      get_wine_path_for_version fs "custom" (some config) =
        Except.error PyErr.runtimeError) ∧
    (∀ p, dictGet config "custom_wine_path" = some p → p ≠ "" →
      get_wine_path_for_version fs "custom" (some config) = Except.ok p) := by
  have hcore : ∀ (c : Option (List (String × String))),
      get_wine_path_for_version fs "custom" c =
        (match c with
         | none => Except.error PyErr.runtimeError
         | some cc =>
           match dictGet cc "custom_wine_path" with
           | none => Except.error PyErr.runtimeError
           | some wine_path =>
             if wine_path = "" then Except.error PyErr.runtimeError
             else Except.ok wine_path) := by
    intro c
    show resolve_version_path fs "custom" c = _
    unfold resolve_version_path
    rw [if_neg (show ¬("custom" = "") by decide), winePaths_custom fs,
      show strContains "custom" "Proton" = false from rfl]
    simp
  refine ⟨by rw [hcore], ?_, ?_⟩
  · intro hcfg
    rcases hcfg with hcfg | hcfg <;> rw [hcore] <;> simp [hcfg]
  · intro p hp hne
    rw [hcore]
    simp [hp, hne]

/-- C5 (witness): with a configured custom path the path is returned; without
a configuration the resolution errors. -/
theorem c5_custom_version_witness :
    get_wine_path_for_version fs0 "custom" (some cfg_custom) =
      Except.ok "/opt/mywine/bin/wine" ∧
    get_wine_path_for_version fs0 "custom" none = Except.error PyErr.runtimeError :=
  ⟨(c5_custom_version fs0 cfg_custom).2.2 "/opt/mywine/bin/wine" rfl (by decide),
   (c5_custom_version fs0 cfg_custom).1⟩

/-- C6 (counterexample): on a host where no file exists and nothing is on
PATH, `get_wine_path_for_version` still returns the unverified default path
`<WINE_DIR>/lutris-fake-1.0/bin/wine` for the unknown version
`"lutris-fake-1.0"` instead of signalling failure: the version is not located
at the returned path (second conjunct). -/
theorem c6_registry_counterexample :
    get_wine_path_for_version fs0 "lutris-fake-1.0" none =
      Except.ok "/rd/wine/lutris-fake-1.0/bin/wine" ∧
    fs0.isfile "/rd/wine/lutris-fake-1.0/bin/wine" = false :=
  ⟨rfl, rfl⟩

/-- C6 (amended): `get_wine_path_for_version` either signals failure or
returns a non-empty path (assuming PATH lookup never resolves to the empty
string, as `shutil.which` never does); for a version string matching no known
source the returned path is the Lutris-managed default
`<WINE_DIR>/<version>/bin/wine`, whose existence is not verified. -/
theorem c6_registry_amended (fs : WineFs) (version : String)
    (config : Option (List (String × String))) (p : String)
    (hw : ∀ e q, fs.which e = some q → q ≠ "")
    (h : get_wine_path_for_version fs version config = Except.ok p) : p ≠ "" := by
  unfold get_wine_path_for_version at h
  split at h
  · rename_i v _
    unfold resolve_version_path at h
    split at h
    · cases h
    · split at h
      · rename_i build _
        exact find_executable_ok_ne_empty fs.which build p hw h
      · split at h
        · rename_i hp
          cases h
          split at hp
          · exact firstProtonHit_ne_empty fs v p fs.proton_paths hp
          · cases hp
        · split at h
          · split at h
            · cases h
            · split at h
              · cases h
              · split at h
                · cases h
                · rename_i hne
                  cases h
                  exact hne
          · cases h
            exact pathJoin_ne_empty _ _
  · cases h

/-- C6 (witness): the amended non-emptiness at a concrete resolution. -/
theorem c6_registry_amended_witness :
    pathJoin (pathJoin "/rd/wine" "lutris-fake-1.0") "bin/wine" ≠ "" :=
  c6_registry_amended fs0 "lutris-fake-1.0" none _
    (fun _ _ h => by cases h) rfl

/-- C9: `get_launch_parameters` reads the `locale` key by direct indexing, so
any configuration lacking it makes the call raise `KeyError` before any
command vector is produced. -/
theorem c9_locale_keyerror (orc : Oracles) (runner : Runner) (gi : GameplayInfo)
    (h : runner.system_config.locale = none) :
    get_launch_parameters orc runner gi = Except.error PyErr.keyError := by
  simp [get_launch_parameters, h]

/-- C9 (witness): a concrete configuration without `locale` raises. -/
theorem c9_locale_keyerror_witness :
    get_launch_parameters orc0 runner9 gi0 = Except.error PyErr.keyError :=
  c9_locale_keyerror orc0 runner9 gi0 rfl

/-- C10: `get_overrides_env` mutates its `overrides` argument: after every
call the caller's mapping contains the default entry
`winemenubuilder ↦ ""`. -/
theorem c10_overrides_mutation (overrides : List (String × String)) :
    dictGet (get_overrides_env_state overrides).2 "winemenubuilder" = some "" := by
  show dictGet (dictUpdate overrides [("winemenubuilder", "")]) "winemenubuilder" = some ""
  show dictGet (dictSet overrides "winemenubuilder" "") "winemenubuilder" = some ""
  exact dictGet_dictSet_self overrides "winemenubuilder" ""

/-- C3: with gamescope disabled and gamemode enabled and available,
`gamemoderun` is token 0 of the returned vector; with both gamescope and
gamemode enabled and available, `gamescope` is token 0 and `gamemoderun`
appears after the `gamescope ... --` prefix. -/
theorem c3_wrapper_order (orc : Oracles) (runner : Runner) (gi : GameplayInfo)
    (args : List String) (env : List (String × String)) :
    (runner.system_config.gamescope = false →
      runner.system_config.gamemode = true →
      orc.gamemode_available = true →
      get_launch_parameters orc runner gi = Except.ok (args, env) →
      args.head? = some "gamemoderun") ∧
    (runner.system_config.gamescope = true →
      can_find_executable orc.which "gamescope" = true →
      runner.system_config.gamemode = true →
      orc.gamemode_available = true →
      get_launch_parameters orc runner gi = Except.ok (args, env) →
      ∃ P rest, args = "gamescope" :: (P ++ "--" :: "gamemoderun" :: rest)) := by
  constructor
  · intro h1 h2 h3 h
    rcases hloc : runner.system_config.locale with _ | locale
    · simp [get_launch_parameters, hloc] at h
    · simp [get_launch_parameters, hloc, h1, h2, h3] at h
      obtain ⟨ha, -⟩ := h
      subst ha
      rfl
  · intro h1 h2 h3 h4 h
    rcases hloc : runner.system_config.locale with _ | locale
    · simp [get_launch_parameters, hloc] at h
    · simp [get_launch_parameters, hloc, h1, h2, h3, h4] at h
      split at h
      · rename_i la hla
        simp only [Except.ok.injEq, Prod.mk.injEq] at h
        obtain ⟨ha, -⟩ := h
        subst ha
        obtain ⟨P, hP⟩ := get_gamescope_args_shape orc runner.system_config _ la hla
        exact ⟨P, _, hP⟩
      · cases h

/-- C3 (witness): the two wrapper orders at concrete configurations. -/
theorem c3_wrapper_order_witness :
    (["gamemoderun", "game"] : List String).head? = some "gamemoderun" ∧
    (∃ P rest, (["gamescope", "--", "gamemoderun", "game"] : List String) =
      "gamescope" :: (P ++ "--" :: "gamemoderun" :: rest)) :=
  ⟨(c3_wrapper_order orc0 runnerA gi0 ["gamemoderun", "game"]
      [("DISABLE_LAYER_AMD_SWITCHABLE_GRAPHICS_1", "1")]).1 rfl rfl rfl rfl,
   (c3_wrapper_order orcG runnerB gi0 ["gamescope", "--", "gamemoderun", "game"]
      [("DISABLE_LAYER_AMD_SWITCHABLE_GRAPHICS_1", "1")]).2 rfl rfl rfl rfl rfl⟩

/-- `apply_single_cpu` with `limit_cpu_count = "4"`: `int("4") = 4`, so the
taskset range is `0-3`. -/
theorem apply_single_cpu_4 (cfg : SysConfig) (args : List String)
    (h1 : cfg.single_cpu = true) (h2 : cfg.limit_cpu_count = some "4") :
    apply_single_cpu cfg args = "taskset" :: "-c" :: "0-3" :: args := by
  unfold apply_single_cpu
  rw [h1, h2]
  rfl

/-- `apply_single_cpu` with the unparsable `limit_cpu_count = "bogus"`:
`isnumeric` fails, so N falls back to `max(1, 1)` and the range is `0-0`. -/
theorem apply_single_cpu_bogus (cfg : SysConfig) (args : List String)
    (h1 : cfg.single_cpu = true) (h2 : cfg.limit_cpu_count = some "bogus") :
    apply_single_cpu cfg args = "taskset" :: "-c" :: "0-0" :: args := by
  unfold apply_single_cpu
  rw [h1, h2]
  rfl

/-- C4: with `single_cpu` on and the gamemode/gamescope stages inactive, the
returned vector has the exact prefix `taskset -c 0-3` when
`limit_cpu_count = "4"`, and `taskset -c 0-0` when `limit_cpu_count` is the
unparsable `"bogus"`. -/
theorem c4_single_cpu_taskset (orc : Oracles) (runner : Runner) (gi : GameplayInfo)
    (args : List String) (env : List (String × String))
    (hs : runner.system_config.single_cpu = true)
    (hgm : (runner.system_config.gamemode && orc.gamemode_available) = false)
    (hgs : (runner.system_config.gamescope &&
      can_find_executable orc.which "gamescope") = false) :
    (runner.system_config.limit_cpu_count = some "4" →
      get_launch_parameters orc runner gi = Except.ok (args, env) →
      ∃ rest, args = "taskset" :: "-c" :: "0-3" :: rest) ∧
    (runner.system_config.limit_cpu_count = some "bogus" →
      get_launch_parameters orc runner gi = Except.ok (args, env) →
      ∃ rest, args = "taskset" :: "-c" :: "0-0" :: rest) := by
  constructor
  · intro hl h
    rcases hloc : runner.system_config.locale with _ | locale
    · simp [get_launch_parameters, hloc] at h
    · simp only [get_launch_parameters, hloc, hgm, hgs, Bool.false_eq_true,
        reduceIte] at h
      rw [apply_single_cpu_4 _ _ hs hl] at h
      simp only [Except.ok.injEq, Prod.mk.injEq] at h
      obtain ⟨ha, -⟩ := h
      exact ⟨_, ha.symm⟩
  · intro hl h
    rcases hloc : runner.system_config.locale with _ | locale
    · simp [get_launch_parameters, hloc] at h
    · simp only [get_launch_parameters, hloc, hgm, hgs, Bool.false_eq_true,
        reduceIte] at h
      rw [apply_single_cpu_bogus _ _ hs hl] at h
      simp only [Except.ok.injEq, Prod.mk.injEq] at h
      obtain ⟨ha, -⟩ := h
      exact ⟨_, ha.symm⟩

/-- C4 (witness): both CPU-affinity prefixes at concrete configurations. -/
theorem c4_single_cpu_taskset_witness :
    (∃ rest, (["taskset", "-c", "0-3", "game"] : List String) =
      "taskset" :: "-c" :: "0-3" :: rest) ∧
    (∃ rest, (["taskset", "-c", "0-0", "game"] : List String) =
      "taskset" :: "-c" :: "0-0" :: rest) :=
  ⟨(c4_single_cpu_taskset orc0 runnerC gi0 ["taskset", "-c", "0-3", "game"]
      [("DISABLE_LAYER_AMD_SWITCHABLE_GRAPHICS_1", "1")] rfl rfl rfl).1 rfl rfl,
   (c4_single_cpu_taskset orc0 runnerD gi0 ["taskset", "-c", "0-0", "game"]
      [("DISABLE_LAYER_AMD_SWITCHABLE_GRAPHICS_1", "1")] rfl rfl rfl).2 rfl rfl⟩

/-- C7: with `gamescope_output_res` equal to `1920x1080` in either letter
case, any successful `get_gamescope_args` result contains the consecutive
tokens `-W 1920 -H 1080`, and the produced vector is identical for
`"1920X1080"` and `"1920x1080"`. -/
theorem c7_gamescope_output_res (orc : Oracles) (cfg : SysConfig)
    (la res : List String) :
    ((cfg.gamescope_output_res = some "1920x1080" ∨
      cfg.gamescope_output_res = some "1920X1080") →
      get_gamescope_args orc cfg la = Except.ok res →
      ∃ u v, res = u ++ "-W" :: "1920" :: "-H" :: "1080" :: v) ∧
    get_gamescope_args orc { cfg with gamescope_output_res := some "1920X1080" } la =
      get_gamescope_args orc { cfg with gamescope_output_res := some "1920x1080" } la := by
  constructor
  · intro hres h
    have key : ∃ s, cfg.gamescope_output_res = some s ∧ s ≠ "" ∧
        pySplit (pyLower s) "x" = ["1920", "1080"] := by
      rcases hres with hres | hres
      · exact ⟨"1920x1080", hres, by decide, rfl⟩
      · exact ⟨"1920X1080", hres, by decide, rfl⟩
    obtain ⟨s, hre, hne, hsp⟩ := key
    unfold get_gamescope_args at h
    split at h
    · cases h
    · rename_i args1 h1
      unfold stage_output_res at h1
      rw [hre] at h1
      simp [hne, hsp] at h1
      cases hsg : stage_game_res cfg args1 with
      | error e =>
        rw [hsg] at h
        simp at h
      | ok args2 =>
        rw [hsg] at h
        simp at h
        obtain ⟨P, hP⟩ := stage_game_res_ext cfg _ _ hsg
        refine ⟨"gamescope" :: P, gamescope_flag_prepends orc cfg ("--" :: la), ?_⟩
        rw [← h, hP, ← h1]
        simp
  · rfl

/-- C7 (witness): the tokens at a concrete configuration. -/
theorem c7_gamescope_output_res_witness :
    ∃ u v, (["gamescope", "-W", "1920", "-H", "1080", "--", "game"] : List String) =
      u ++ "-W" :: "1920" :: "-H" :: "1080" :: v :=
  (c7_gamescope_output_res orc0 { gamescope_output_res := some "1920x1080" }
    ["game"] ["gamescope", "-W", "1920", "-H", "1080", "--", "game"]).1
    (Or.inl rfl) rfl

/-- C8: with a non-empty `fps_limit`, the FPS-limiter stage prepends the
resolved `strangle` executable and the limit when the tool is locatable,
skips the stage (fail-open) when it is not, and in the latter case
`get_launch_parameters` still completes without an exception (given a
present `locale` key and the gamescope stage inactive, the only other
error sources). -/
theorem c8_fps_limiter_fail_open (orc : Oracles) (cfg : SysConfig)
    (args : List String) (lim : String)
    (hfl : cfg.fps_limit = some lim) (hlim : lim ≠ "") :
    (∀ p, orc.which "strangle" = some p →
      apply_fps_limit orc cfg args = p :: lim :: args) ∧
    (orc.which "strangle" = none → apply_fps_limit orc cfg args = args) ∧
    (∀ (runner : Runner) (gi : GameplayInfo) (l : String),
      runner.system_config = cfg → orc.which "strangle" = none →
      cfg.locale = some l →
      (cfg.gamescope && can_find_executable orc.which "gamescope") = false →
      ∃ r, get_launch_parameters orc runner gi = Except.ok r) := by
  refine ⟨?_, ?_, ?_⟩
  · intro p hp
    unfold apply_fps_limit find_executable
    rw [hfl]
    simp [hlim, hp]
  · intro hp
    unfold apply_fps_limit find_executable
    rw [hfl]
    simp [hlim, hp]
  · intro runner gi l hr hp hloc hgs
    simp only [get_launch_parameters, hr, hloc, hgs, Bool.false_eq_true, reduceIte]
    exact ⟨_, rfl⟩

/-- C8 (witness): the three behaviours at concrete hosts. -/
theorem c8_fps_limiter_fail_open_witness :
    apply_fps_limit orcS cfgF ["game"] = ["/usr/bin/strangle", "60", "game"] ∧
    apply_fps_limit orc0 cfgF ["game"] = ["game"] ∧
    (∃ r, get_launch_parameters orc0 runnerF gi0 = Except.ok r) :=
  ⟨(c8_fps_limiter_fail_open orcS cfgF ["game"] "60" rfl (by decide)).1
      "/usr/bin/strangle" rfl,
   (c8_fps_limiter_fail_open orc0 cfgF ["game"] "60" rfl (by decide)).2.1 rfl,
   (c8_fps_limiter_fail_open orc0 cfgF ["game"] "60" rfl (by decide)).2.2
      runnerF gi0 "" rfl rfl rfl rfl⟩

end Lutris
